import Mathlib

/-!
# A shallow embedding of `poutr`'s history core (`src/history.ts`)

This development embeds the location model, the simulated navigation
surfaces (`createMockedWindow` from `src/history.ts` and the test
surface `createWindowSubset` from `test/_utils.ts`), the history
drivers (hash, memory) and the shared history engine (`createHistory`),
and proves or refutes the spec's claims about them.

JavaScript `any` state payloads are embedded as the inductive
`StateVal`; `Location` records carry an allocation id so that the
JavaScript reference equality (`===`) between freshly created location
objects is expressible as equality of embedded values.
-/

namespace Poutr

/-- Embedding of the JavaScript values that flow through the `state`
slots of the library: `undefined`, `null`, opaque caller objects
(identified by an allocation number), and the memory driver's envelope
object `{IS_MEMORY_HISTORY_STATE: true, state, href}`. -/
inductive StateVal where
  | undefined
  | null
  | obj (n : Nat)
  | env (state : StateVal) (href : String)
deriving DecidableEq, Repr, BEq

/-- `Location` as produced by `createLocation` (`src/history.ts:58`).
The `searchParams` view is a pure function of `search` and is omitted;
`id` is the allocation identity of the JavaScript object, used to
express `===` between location values. -/
structure Location where
  id : Nat
  href : String
  path : String
  search : String
  hash : String
  state : StateVal
deriving DecidableEq, Repr, BEq

/-- The `Action` union type (`src/history.ts:28`). -/
inductive Action where
  | POP
  | PUSH
  | REPLACE
deriving DecidableEq, Repr, BEq

/-! ## String utilities modelling the platform primitives used by the source

The source leans on the WHATWG `URL` parser, `String.prototype.replace`
and `decodeURIComponent`.  These are platform functions, not repository
code; they are modelled here for the class of inputs the library feeds
them: scheme-less href-like strings (path, query and fragment made of
code points that the WHATWG parser neither percent-encodes nor
normalizes away, and containing no `.`/`..` segments). -/

/-- Split a character list at the first occurrence of `c`; the second
component starts with `c` when present. -/
def breakAt (c : Char) : List Char → List Char × List Char
  | [] => ([], [])
  | d :: rest =>
    if d = c then ([], d :: rest)
    else
      let (a, b) := breakAt c rest
      (d :: a, b)

/-- Model of reading `pathname`, `search` and `hash` off
`new URL("pr:" + href)` for a scheme-less href-like string (the branch
`createLocation` takes for every href the embedded drivers produce):
the fragment starts at the first `#`, the query at the first `?` before
it, and the `search`/`hash` getters return `""` for an empty query or
fragment. -/
def splitRef (s : String) : String × String × String :=
  let (pre, hashPart) := breakAt '#' s.toList
  let (pathPart, searchPart) := breakAt '?' pre
  (String.mk pathPart,
   if searchPart = ['?'] then "" else String.mk searchPart,
   if hashPart = ['#'] then "" else String.mk hashPart)

/-- Model of the regex replace `.replace(/\/+/g, '/')`
(`src/history.ts:62`): every maximal run of `/` collapses to one. -/
def collapseSlashes : List Char → List Char
  | [] => []
  | [c] => [c]
  | c :: d :: rest =>
    if c = '/' ∧ d = '/' then collapseSlashes (d :: rest)
    else c :: collapseSlashes (d :: rest)

/-- Model of the regex replace `.replace(/.\/+$/, '')`
(`src/history.ts:63`).  The (non-global) regex matches, leftmost, one
arbitrary character followed by a run of `/` reaching the end of the
string, and the match is replaced by the empty string.  So: with `k`
the length of the maximal trailing run of `/`, nothing changes when
`k = 0` or the string is a single `/`; when the whole string is slashes
(and has length at least two) everything is removed; otherwise the
trailing run *and the character before it* are removed. -/
def stripTrailing (l : List Char) : List Char :=
  let k := (l.reverse.takeWhile (· = '/')).length
  if k = 0 then l
  else if k = l.length then
    if 2 ≤ l.length then [] else l
  else l.take (l.length - (k + 1))

/-- `createLocation` (`src/history.ts:58`): parse the href-like string
(via the `pr:`-wrapped URL model `splitRef`), prepend `/` to the
pathname, collapse duplicate slashes, apply the trailing regex, and
rebuild `href` as `path + search + hash`.  `id` is the allocation
identity of the fresh object. -/
def createLocation (href : String) (state : StateVal) (id : Nat) : Location :=
  let (pathname, search, hash) := splitRef href
  let path := String.mk (stripTrailing (collapseSlashes ('/' :: pathname.toList)))
  { id, href := path ++ search ++ hash, path, search, hash, state }

/-! ## Relative URL resolution model

`createWindowSubset`, the hash driver's `prepareUrl` and the memory
driver's `prepareState` all call `new URL(ref, base)` with an
`http(s)` base and a path-absolute, query-only, fragment-only or
relative-path reference.  `SubsetURL` keeps the varying components of
such a URL (the scheme and host are fixed constants at every call
site and never read back). -/

structure SubsetURL where
  pathname : String
  search : String
  hash : String
deriving DecidableEq, Repr, BEq, Inhabited

/-- Merge a relative path reference into a base pathname, per the
WHATWG "merge paths": everything up to and including the base's last
`/`, followed by the reference. -/
def mergePath (base : String) (p : String) : String :=
  String.mk ((base.toList.reverse.dropWhile (· ≠ '/')).reverse ++ p.toList)

/-- Model of `new URL(to, base)` for an `http(s)` base and the
reference shapes the library produces: path-absolute (`/...`),
query-only (`?...`), fragment-only (`#...`), empty, and relative-path
references without dot segments. -/
def resolveRef (ref : String) (base : SubsetURL) : SubsetURL :=
  let (p, q, h) := splitRef ref
  if p = "" then
    if ref.toList.head? = some '?' then { pathname := base.pathname, search := q, hash := h }
    else if ref = "" then { pathname := base.pathname, search := base.search, hash := "" }
    else { pathname := base.pathname, search := base.search, hash := h }
  else if p.toList.head? = some '/' then { pathname := p, search := q, hash := h }
  else { pathname := mergePath base.pathname p, search := q, hash := h }

/-- Model of parsing `"https://host" ++ href` for an href that is
empty or starts with `/`: the empty path reads back as `/`. -/
def hrefToURL (href : String) : SubsetURL :=
  let (p, q, h) := splitRef href
  { pathname := if p = "" then "/" else p, search := q, hash := h }

/-- One hexadecimal digit. -/
def hexVal (c : Char) : Option Nat :=
  if '0' ≤ c ∧ c ≤ '9' then some (c.toNat - '0'.toNat)
  else if 'a' ≤ c ∧ c ≤ 'f' then some (c.toNat - 'a'.toNat + 10)
  else if 'A' ≤ c ∧ c ≤ 'F' then some (c.toNat - 'A'.toNat + 10)
  else none

/-- Model of `decodeURIComponent` restricted to single-byte escapes:
`%XX` pairs decode to the corresponding code point, everything else is
passed through.  (The library only ever decodes strings the embedded
surfaces produced, which contain no multi-byte escapes.) -/
def percentDecode : List Char → List Char
  | '%' :: h1 :: h2 :: rest =>
    match hexVal h1, hexVal h2 with
    | some a, some b => Char.ofNat (a * 16 + b) :: percentDecode rest
    | _, _ => '%' :: percentDecode (h1 :: h2 :: rest)
  | c :: rest => c :: percentDecode rest
  | [] => []

/-- Model of `String.prototype.replace` with a *string* pattern
(`.replace(hashSubstitute, '#')` in `src/history.ts:188`): only the
first occurrence of the pattern is replaced. -/
def replaceFirst (s : List Char) (pat : List Char) (repl : List Char) : List Char :=
  match s with
  | [] => if pat = [] then repl else []
  | c :: rest =>
    if pat.isPrefixOf s then repl ++ s.drop pat.length
    else c :: replaceFirst rest pat repl

/-! ## Simulated navigation surfaces

Two concrete surfaces appear in the repository:
`createMockedWindow` (`src/history.ts:67`, raw-string entries, the
memory history's default backend) and `createWindowSubset`
(`test/_utils.ts:27`, entries holding resolved URLs).  Both keep an
ordered list of `(location, state)` entries and a cursor.  The
engine's `handlePop` is the only popstate listener either surface ever
receives, so listener registration is modelled by the engine-side
`popAttached` flag and `go` reports whether its listeners fired. -/

/-- Entry of `createMockedWindow`'s stack: a `[location, state?]`
tuple with a raw string location. -/
structure Entry where
  href : String
  state : StateVal
deriving DecidableEq, Repr, BEq

/-- State of `createMockedWindow` (`src/history.ts:67`). -/
structure MockedWindow where
  index : Nat
  entries : List Entry
deriving DecidableEq, Repr, BEq

namespace MockedWindow

/-- `createMockedWindow(initial)`: one seed entry, no state, cursor 0. -/
def init (initial : String := "/") : MockedWindow :=
  { index := 0, entries := [{ href := initial, state := .undefined }] }

/-- `window.location.href` getter: `history[index]![0]`. -/
def locHref (w : MockedWindow) : String :=
  (w.entries.getD w.index { href := "", state := .undefined }).href

/-- `window.history.state` getter: `history[index]?.[1]`. -/
def stateAt (w : MockedWindow) : StateVal :=
  ((w.entries.get? w.index).map Entry.state).getD .undefined

/-- `pushState(state, title, location?)` (`src/history.ts:85`):
`history.splice(++index, Infinity, [location || history[history.length - 1]![0], state])`
— a falsy `location` (absent or `""`) falls back to the *last* entry's
location; everything after the incremented cursor is removed and the
new entry appended. -/
def pushState (w : MockedWindow) (state : StateVal) (location : Option String) : MockedWindow :=
  let fallback := (w.entries.getLastD { href := "", state := .undefined }).href
  let href := match location with
    | some l => if l = "" then fallback else l
    | none => fallback
  { index := w.index + 1,
    entries := w.entries.take (w.index + 1) ++ [{ href, state }] }

/-- `replaceState(state, title, location?)` (`src/history.ts:88`):
overwrite the entry at the cursor (same falsy fallback to the last
entry's location). -/
def replaceState (w : MockedWindow) (state : StateVal) (location : Option String) : MockedWindow :=
  let fallback := (w.entries.getLastD { href := "", state := .undefined }).href
  let href := match location with
    | some l => if l = "" then fallback else l
    | none => fallback
  { w with entries := w.entries.set w.index { href, state } }

/-- `go(delta)` (`src/history.ts:91`): clamp the moved cursor into
`[0, length - 1]`; the returned flag is whether the popstate listeners
fired, i.e. whether the cursor changed. -/
def go (w : MockedWindow) (delta : Int) : MockedWindow × Bool :=
  let target := (max 0 (min ((w.entries.length : Int) - 1) ((w.index : Int) + delta))).toNat
  ({ w with index := target }, target ≠ w.index)

end MockedWindow

/-- Entry of `createWindowSubset`'s stack: a `[URL, state?]` tuple. -/
structure SubsetEntry where
  url : SubsetURL
  state : StateVal
deriving DecidableEq, Repr, BEq

instance : Inhabited SubsetEntry := ⟨{ url := default, state := .undefined }⟩

/-- State of the test surface `createWindowSubset`
(`test/_utils.ts:27`), seeded with `new URL(initial, 'https://example.com')`. -/
structure TestWindow where
  index : Nat
  entries : List SubsetEntry
deriving DecidableEq, Repr, BEq

namespace TestWindow

/-- `createWindowSubset(initial = '/')` with a path-absolute initial. -/
def init (initial : String := "/") : TestWindow :=
  { index := 0,
    entries := [{ url := resolveRef initial { pathname := "/", search := "", hash := "" },
                  state := .undefined }] }

/-- `window.location.hash` getter: the current entry's URL hash. -/
def locHash (w : TestWindow) : String :=
  ((w.entries.getD w.index default).url).hash

/-- `window.location.pathname` getter. -/
def locPathname (w : TestWindow) : String :=
  ((w.entries.getD w.index default).url).pathname

/-- `window.history.state` getter. -/
def stateAt (w : TestWindow) : StateVal :=
  ((w.entries.get? w.index).map SubsetEntry.state).getD .undefined

/-- `pushState` (`test/_utils.ts:55`): resolve a truthy `location`
against the *last* entry's URL, else reuse that URL; truncate after
the incremented cursor and append. -/
def pushState (w : TestWindow) (state : StateVal) (location : Option String) : TestWindow :=
  let prev := (w.entries.getLastD default).url
  let url := match location with
    | some l => if l = "" then prev else resolveRef l prev
    | none => prev
  { index := w.index + 1,
    entries := w.entries.take (w.index + 1) ++ [{ url, state }] }

/-- `replaceState` (`test/_utils.ts:62`). -/
def replaceState (w : TestWindow) (state : StateVal) (location : Option String) : TestWindow :=
  let prev := (w.entries.getLastD default).url
  let url := match location with
    | some l => if l = "" then prev else resolveRef l prev
    | none => prev
  { w with entries := w.entries.set w.index { url, state } }

/-- `go(delta)` (`test/_utils.ts:66`), same clamping as the mocked
window. -/
def go (w : TestWindow) (delta : Int) : TestWindow × Bool :=
  let target := (max 0 (min ((w.entries.length : Int) - 1) ((w.index : Int) + delta))).toNat
  ({ w with index := target }, target ≠ w.index)

end TestWindow

/-! ## The history engine (`createHistory`, `src/history.ts:104`) -/

/-- The subset of `WindowSubset` operations `createHistory` and the
drivers use, over an arbitrary surface state type `σ`. -/
structure SurfaceOps (σ : Type) where
  length : σ → Nat
  stateAt : σ → StateVal
  pushState : σ → StateVal → Option String → σ
  replaceState : σ → StateVal → Option String → σ
  go : σ → Int → σ × Bool

/-- A `HistoryDriver` (`src/history.ts:48`).  `getLocation` takes the
fresh allocation id handed to `createLocation` and returns an error on
`throw`. -/
structure Driver (σ : Type) where
  getLocation : σ → Nat → Except String Location
  prepareUrl : String → Location → Option String
  prepareState : StateVal → String → Location → StateVal

/-- A driver bound to its surface's operations. -/
structure Config (σ : Type) where
  ops : SurfaceOps σ
  driver : Driver σ

/-- The engine's mutable state: the surface, whether `handlePop` is
still registered on it, the cached `location`/`from` pair, the
listener set (a JS `Set`: insertion-ordered and duplicate-free,
listeners identified by allocation number), and the allocation counter
for fresh `Location` ids. -/
structure Engine (σ : Type) where
  win : σ
  popAttached : Bool
  location : Location
  fromLoc : Option Location
  listeners : List Nat
  nextId : Nat
deriving DecidableEq, Repr, BEq

/-- A change event as delivered to the listeners: one `triggerChange`
firing, received by every listener in `recipients`. -/
structure Change where
  action : Action
  location : Location
  fromLoc : Option Location
  recipients : List Nat
deriving DecidableEq, Repr, BEq

/-- `createHistory` (`src/history.ts:104`): derive the initial
location (a throw propagates to the factory's caller), register
`handlePop` on the surface, start with no `from` and no listeners. -/
def createHistoryM (c : Config σ) (w : σ) : Except String (Engine σ) :=
  match c.driver.getLocation w 0 with
  | .error e => .error e
  | .ok loc =>
    .ok { win := w, popAttached := true, location := loc, fromLoc := none,
          listeners := [], nextId := 1 }

/-- `triggerChange(action)` (`src/history.ts:115`): set `from` to the
current location, re-derive `location` from the surface, then notify
every listener with the same `{action, location, from}` record.  When
`getLocation` throws, `from` has already been reassigned and the
exception propagates (no event is delivered). -/
def triggerChange (c : Config σ) (a : Action) (e : Engine σ) : Engine σ × Except String Change :=
  let e1 := { e with fromLoc := some e.location }
  match c.driver.getLocation e1.win e1.nextId with
  | .error msg => (e1, .error msg)
  | .ok newLoc =>
    ({ e1 with location := newLoc, nextId := e1.nextId + 1 },
     .ok { action := a, location := newLoc, fromLoc := some e.location,
           recipients := e.listeners })

/-- `push(to, state)` (`src/history.ts:136`). -/
def pushM (c : Config σ) (toStr : String) (st : StateVal) (e : Engine σ) :
    Engine σ × Except String Change :=
  let e1 := { e with
    win := c.ops.pushState e.win (c.driver.prepareState st toStr e.location)
                                 (c.driver.prepareUrl toStr e.location) }
  triggerChange c .PUSH e1

/-- `replace(to, state)` (`src/history.ts:140`). -/
def replaceM (c : Config σ) (toStr : String) (st : StateVal) (e : Engine σ) :
    Engine σ × Except String Change :=
  let e1 := { e with
    win := c.ops.replaceState e.win (c.driver.prepareState st toStr e.location)
                                    (c.driver.prepareUrl toStr e.location) }
  triggerChange c .REPLACE e1

/-- `go(delta)` (`src/history.ts:144`): delegate to the surface; if
the surface's listeners fired and `handlePop` is still attached, the
pop is handled synchronously inside the surface's `go` via
`triggerChange('POP')`. -/
def goM (c : Config σ) (delta : Int) (e : Engine σ) :
    Engine σ × Except String (Option Change) :=
  let s := c.ops.go e.win delta
  let e1 := { e with win := s.1 }
  if s.2 ∧ e.popAttached then
    let t := triggerChange c .POP e1
    (t.1, t.2.map some)
  else (e1, .ok none)

/-- `back()` (`src/history.ts:145`). -/
def backM (c : Config σ) (e : Engine σ) : Engine σ × Except String (Option Change) :=
  goM c (-1) e

/-- `forward()` (`src/history.ts:146`). -/
def forwardM (c : Config σ) (e : Engine σ) : Engine σ × Except String (Option Change) :=
  goM c 1 e

/-- `subscribe(listener)` (`src/history.ts:147`): `Set.add` — a
listener already present is not duplicated. -/
def subscribeM (id : Nat) (e : Engine σ) : Engine σ :=
  { e with listeners := if id ∈ e.listeners then e.listeners else e.listeners ++ [id] }

/-- `unsubscribe(listener)` / the disposer returned by `subscribe`:
`Set.delete`. -/
def unsubscribeM (id : Nat) (e : Engine σ) : Engine σ :=
  { e with listeners := e.listeners.erase id }

/-- `destroy()` (`src/history.ts:154`): remove `handlePop` from the
surface and clear the listener set. -/
def destroyM (e : Engine σ) : Engine σ :=
  { e with popAttached := false, listeners := [] }

/-- The `length` getter (`src/history.ts:124`): `window.history.length`. -/
def lengthM (c : Config σ) (e : Engine σ) : Nat :=
  c.ops.length e.win

/-! ## Memory history (`createMemoryHistory`, `src/history.ts:214`) -/

/-- The memory driver's `prepareState` (`src/history.ts:216`): resolve
`to` against `'https://m.com' + (current?.href || '')` and wrap the
caller's state in the envelope
`{IS_MEMORY_HISTORY_STATE: true, state, href: pathname+search+hash}`. -/
def memPrepareState (st : StateVal) (toStr : String) (currentHref : Option String) : StateVal :=
  let base : SubsetURL := match currentHref with
    | none => { pathname := "/", search := "", hash := "" }
    | some h => hrefToURL h
  let u := resolveRef toStr base
  .env st (u.pathname ++ u.search ++ u.hash)

/-- The memory driver's `getLocation` core (`src/history.ts:229`):
require the envelope marker on the surface's current state, throwing
`navigation out of memory history` otherwise, and rebuild the location
from the envelope's `href` and `state`. -/
def memGetLocation (st : StateVal) (id : Nat) : Except String Location :=
  match st with
  | .env inner href => .ok (createLocation href inner id)
  | _ => .error "navigation out of memory history"

/-- The MockedWindow operations as seen by `createHistory`. -/
def mockedOps : SurfaceOps MockedWindow :=
  { length := fun w => w.entries.length
    stateAt := MockedWindow.stateAt
    pushState := MockedWindow.pushState
    replaceState := MockedWindow.replaceState
    go := MockedWindow.go }

/-- The memory driver over a mocked window: `prepareUrl` always
`undefined`, `prepareState` wraps in the envelope using the current
location's `href`. -/
def memConfig : Config MockedWindow :=
  { ops := mockedOps
    driver :=
      { getLocation := fun w id => memGetLocation (MockedWindow.stateAt w) id
        prepareUrl := fun _ _ => none
        prepareState := fun st toStr loc => memPrepareState st toStr (some loc.href) } }

/-- `createMemoryHistory({initial, window})` (`src/history.ts:214`):
seed (or take) the surface, `replaceState` the envelope for `initial`
(`current` is `undefined` at that point, and the `location` argument is
omitted), then run `createHistory` with the memory driver. -/
def createMemoryHistoryM (initial : String := "/") (w : MockedWindow := MockedWindow.init) :
    Except String (Engine MockedWindow) :=
  let w1 := w.replaceState (memPrepareState .null initial none) none
  createHistoryM memConfig w1

/-! ## Hash history (`createHashHistory`, `src/history.ts:182`) -/

/-- The hash driver's `getLocation` core (`src/history.ts:187`):
`createLocation(decodeURIComponent(location.hash.slice(1)).replace(hashSubstitute, '#'), history.state)`. -/
def hashGetLocation (sub : String) (hashStr : String) (st : StateVal) (id : Nat) : Location :=
  createLocation
    (String.mk (replaceFirst (percentDecode (hashStr.drop 1).toList) sub.toList ['#']))
    st id

/-- The hash driver's `prepareUrl` (`src/history.ts:189`): resolve `to`
against `'http://h.com' + href`, re-encode a non-trivial fragment with
the substitute character, and prefix the composed value with `#`. -/
def hashPrepareUrl (sub : String) (toStr : String) (currentHref : String) : String :=
  let u := resolveRef toStr (hrefToURL currentHref)
  let hash := if 1 < u.hash.length then sub ++ u.hash.drop 1 else ""
  "#" ++ u.pathname ++ u.search ++ hash

/-- The TestWindow operations as seen by `createHistory`. -/
def testOps : SurfaceOps TestWindow :=
  { length := fun w => w.entries.length
    stateAt := TestWindow.stateAt
    pushState := TestWindow.pushState
    replaceState := TestWindow.replaceState
    go := TestWindow.go }

/-- The hash driver with substitute `sub`, bound to the test surface
(which resolves pushed `#...` URLs against the current entry like a
real browser window does). -/
def hashConfig (sub : String) : Config TestWindow :=
  { ops := testOps
    driver :=
      { getLocation := fun w id =>
          .ok (hashGetLocation sub (TestWindow.locHash w) (TestWindow.stateAt w) id)
        prepareUrl := fun toStr loc => some (hashPrepareUrl sub toStr loc.href)
        prepareState := fun st _ _ => st } }

/-- `createHashHistory({window, hashSubstitute})` over a test surface. -/
def createHashHistoryM (sub : String) (w : TestWindow := TestWindow.init) :
    Except String (Engine TestWindow) :=
  createHistoryM (hashConfig sub) w

/-! ## Claims -/

instance {ε α : Type} [DecidableEq ε] [DecidableEq α] : DecidableEq (Except ε α) := fun x y =>
  match x, y with
  | .ok a, .ok b =>
    if h : a = b then .isTrue (h ▸ rfl) else .isFalse (fun hh => h (Except.ok.inj hh))
  | .error a, .error b =>
    if h : a = b then .isTrue (h ▸ rfl) else .isFalse (fun hh => h (Except.error.inj hh))
  | .ok _, .error _ => .isFalse (fun hh => Except.noConfusion hh)
  | .error _, .ok _ => .isFalse (fun hh => Except.noConfusion hh)

/-- C1: the spec says `parse` strips a single trailing `/` (after
prepending `/` and collapsing duplicate slashes), so that
`parse("/foo//bar/")` yields path `"/foo/bar"`.  The code's regex
`.replace(/.\/+$/, '')` (`src/history.ts:63`) deletes the character
*before* the trailing slash as well, yielding `"/foo/ba"`, although its
own comment says it "removes trailing slash".  This theorem evaluates
the embedded pipeline at the claim's own input. -/
theorem trailing_slash_normalization_bug :
    (createLocation "/foo//bar/" .undefined 0).path = "/foo/ba" ∧
    (createLocation "/foo//bar/" .undefined 0).path ≠ "/foo/bar" := by
  constructor <;> decide

/-- C8: the spec says `parse` is idempotent on the path component.  The
trailing-slash regex bug breaks this: `parse("/a/b/").path = "/a/"`,
but `parse("/a/").path = "/"`. -/
theorem parse_not_idempotent :
    (createLocation "/a/b/" .undefined 0).path = "/a/" ∧
    (createLocation ((createLocation "/a/b/" .undefined 0).path) .undefined 0).path = "/" ∧
    (createLocation ((createLocation "/a/b/" .undefined 0).path) .undefined 0).path ≠
      (createLocation "/a/b/" .undefined 0).path := by
  refine ⟨by decide, by decide, by decide⟩

/-- C2: a memory engine built over a surface whose stack holds an entry
with foreign native state (here: a `pushState(null, '', '/foo')` issued
directly on the surface before the engine was created) raises
`navigation out of memory history` from `back()`; and in general the
memory driver's location derivation fails with that exact message on
every state value that is not its own envelope. -/
theorem memory_integrity_failure :
    (∃ e0 : Engine MockedWindow,
      createMemoryHistoryM "/" ((MockedWindow.init "/").pushState .null (some "/foo")) = .ok e0 ∧
      (backM memConfig e0).2 = .error "navigation out of memory history") ∧
    (∀ (st : StateVal) (id : Nat),
      (∃ s h, st = .env s h) ∨
        memGetLocation st id = .error "navigation out of memory history") := by
  constructor
  · exact ⟨_, rfl, by decide⟩
  · intro st id
    cases st with
    | env s h => exact Or.inl ⟨s, h, rfl⟩
    | undefined => exact Or.inr rfl
    | null => exact Or.inr rfl
    | obj n => exact Or.inr rfl

/-- C4: `createMockedWindow`'s `go(delta)` (`src/history.ts:91`) moves
the cursor to `clamp(cursor + delta, 0, length - 1)`, leaves the entry
stack untouched (the move applies fully or not at all, never
partially), and its popstate listeners fire exactly when the clamped
target differs from the current cursor — a clamped no-op fires no
notification. -/
theorem goByDelta_clamp_noop (w : MockedWindow) (delta : Int) :
    (w.go delta).1 =
      { w with index := (max 0 (min ((w.entries.length : Int) - 1)
                                    ((w.index : Int) + delta))).toNat } ∧
    (w.go delta).1.entries = w.entries ∧
    ((w.go delta).2 = true ↔
      (max 0 (min ((w.entries.length : Int) - 1) ((w.index : Int) + delta))).toNat ≠ w.index) := by
  refine ⟨rfl, rfl, ?_⟩
  simp [MockedWindow.go]

/-- C7: on a hash-mode engine with the custom substitute character `~`,
pushing `/foo` and then `#bar` stores the composed fragment in the
surface's outer hash with `~` standing in for the inner `#`
(`"#/foo" ++ "~" ++ "bar"`), and deriving the location back from the
surface decodes it to `hash = "#bar"`. -/
theorem hash_substitute_round_trip :
    ∃ e0 : Engine TestWindow,
      createHashHistoryM "~" TestWindow.init = .ok e0 ∧
      (let e1 := (pushM (hashConfig "~") "/foo" .undefined e0).1
       let e2 := (pushM (hashConfig "~") "#bar" .undefined e1).1
       TestWindow.locHash e2.win = "#/foo" ++ "~" ++ "bar" ∧
       e2.location.hash = "#bar" ∧
       e2.location.path = "/foo") := by
  exact ⟨_, rfl, by decide, by decide, by decide⟩

/-- C5: on an engine whose current location path is `/`, with a
listener subscribed, `push('/foo')` followed by `back()` delivers a
notification with action `POP`, location path `/`, `from` path `/foo`,
to that listener — shown on the memory engine and on the hash engine. -/
theorem push_back_pop_symmetry :
    (∃ (e0 : Engine MockedWindow) (ch : Change),
      createMemoryHistoryM "/" MockedWindow.init = .ok e0 ∧
      e0.location.path = "/" ∧
      (let p := pushM memConfig "/foo" .undefined (subscribeM 1 e0)
       p.1.location.path = "/foo" ∧
       (backM memConfig p.1).2 = .ok (some ch) ∧
       ch.action = .POP ∧
       ch.location.path = "/" ∧
       ch.fromLoc.map Location.path = some "/foo" ∧
       ch.recipients = [1])) ∧
    (∃ (e0 : Engine TestWindow) (ch : Change),
      createHashHistoryM "~" TestWindow.init = .ok e0 ∧
      e0.location.path = "/" ∧
      (let p := pushM (hashConfig "~") "/foo" .undefined (subscribeM 1 e0)
       p.1.location.path = "/foo" ∧
       (backM (hashConfig "~") p.1).2 = .ok (some ch) ∧
       ch.action = .POP ∧
       ch.location.path = "/" ∧
       ch.fromLoc.map Location.path = some "/foo" ∧
       ch.recipients = [1])) := by
  exact ⟨⟨_, _, rfl, rfl, rfl, rfl, rfl, rfl, rfl, rfl⟩,
         ⟨_, _, rfl, rfl, rfl, rfl, rfl, rfl, rfl, rfl⟩⟩

/-- C6: the engine's `length` over a freshly seeded simulated surface
starts at 1, reaches 6 after five pushes, and drops to 2 after
`go(-5)` followed by one more push, because `pushState` truncates
every entry after the cursor before appending; and the cursor stays a
valid index of the stack across a push. -/
theorem length_tracking_truncation :
    (∃ e0 : Engine MockedWindow,
      createMemoryHistoryM "/" MockedWindow.init = .ok e0 ∧
      lengthM memConfig e0 = 1 ∧
      (let e5 := (pushM memConfig "/6" .undefined
                   (pushM memConfig "/5" .undefined
                     (pushM memConfig "/4" .undefined
                       (pushM memConfig "/3" .undefined
                         (pushM memConfig "/2" .undefined e0).1).1).1).1).1
       lengthM memConfig e5 = 6 ∧
       lengthM memConfig (pushM memConfig "/2" .undefined (goM memConfig (-5) e5).1).1 = 2)) ∧
    (∀ (w : MockedWindow) (st : StateVal) (loc : Option String),
      (∃ entry, (w.pushState st loc).entries = w.entries.take (w.index + 1) ++ [entry]) ∧
      (w.pushState st loc).index = w.index + 1) ∧
    (∀ (w : MockedWindow) (st : StateVal) (loc : Option String),
      w.index < w.entries.length →
        (w.pushState st loc).index < (w.pushState st loc).entries.length) := by
  refine ⟨⟨_, rfl, rfl, rfl, rfl⟩, ?_, ?_⟩
  · intro w st loc
    exact ⟨⟨_, rfl⟩, rfl⟩
  · intro w st loc h
    show w.index + 1 < (w.entries.take (w.index + 1) ++ [_]).length
    rw [List.length_append, List.length_take]
    simp only [List.length_singleton]
    omega

/-- Witness for the hypothesis of the cursor-validity conjunct of
`length_tracking_truncation`, at the one-entry seed surface. -/
theorem length_tracking_truncation_witness :
    (MockedWindow.init "/").index < (MockedWindow.init "/").entries.length ∧
    ((MockedWindow.init "/").pushState .null none).index <
      ((MockedWindow.init "/").pushState .null none).entries.length :=
  ⟨by decide, length_tracking_truncation.2.2 (MockedWindow.init "/") .null none (by decide)⟩

/-- Helper: whatever the driver and surface, a change event produced by
`triggerChange` carries the freshly derived location (the one the
engine's `location` getter returns from then on), the pre-change
location as `from`, and is delivered to exactly the current listener
set. -/
theorem triggerChange_consistent {σ : Type} (c : Config σ) (a : Action) (e : Engine σ)
    (ch : Change) (h : (triggerChange c a e).2 = .ok ch) :
    ch.location = (triggerChange c a e).1.location ∧
    ch.fromLoc = some e.location ∧ ch.recipients = e.listeners := by
  unfold triggerChange at h ⊢
  cases hg : c.driver.getLocation e.win e.nextId with
  | error msg => simp [hg] at h
  | ok newLoc =>
    simp only [hg] at h ⊢
    cases h
    exact ⟨rfl, rfl, rfl⟩

/-- A sample memory engine used to instantiate the generic engine
theorems: one envelope entry on the surface, one subscribed listener. -/
def sampleEngine : Engine MockedWindow :=
  { win := { index := 0, entries := [{ href := "/", state := .env .null "/" }] },
    popAttached := true,
    location := createLocation "/" .null 0,
    fromLoc := none,
    listeners := [7],
    nextId := 1 }

/-- C3: for every notification a `push`, `replace` or pop delivers to
the subscribed listeners, the `location` in the event is the very
location the engine exposes at the moment of notification, `from` is
the location the engine exposed immediately before the change, and the
recipients are exactly the listeners subscribed when the change fired —
for any driver and any surface. -/
theorem notify_location_consistency {σ : Type} (c : Config σ) (e : Engine σ)
    (toStr : String) (st : StateVal) (delta : Int) :
    (∀ ch, (pushM c toStr st e).2 = .ok ch →
      ch.location = (pushM c toStr st e).1.location ∧
      ch.fromLoc = some e.location ∧ ch.recipients = e.listeners) ∧
    (∀ ch, (replaceM c toStr st e).2 = .ok ch →
      ch.location = (replaceM c toStr st e).1.location ∧
      ch.fromLoc = some e.location ∧ ch.recipients = e.listeners) ∧
    (∀ ch, (goM c delta e).2 = .ok (some ch) →
      ch.location = (goM c delta e).1.location ∧
      ch.fromLoc = some e.location ∧ ch.recipients = e.listeners) := by
  refine ⟨fun ch h => ?_, fun ch h => ?_, fun ch h => ?_⟩
  · exact triggerChange_consistent c .PUSH _ ch h
  · exact triggerChange_consistent c .REPLACE _ ch h
  · unfold goM at h ⊢
    by_cases hc : (c.ops.go e.win delta).2 = true ∧ e.popAttached = true
    · simp only [if_pos hc] at h ⊢
      cases hr : (triggerChange c .POP { e with win := (c.ops.go e.win delta).1 }).2 with
      | error msg => rw [hr] at h; cases h
      | ok ch2 =>
        rw [hr] at h
        simp only [Except.map, Except.ok.injEq, Option.some.injEq] at h
        subst h
        exact triggerChange_consistent c .POP _ _ hr
    · simp only [if_neg hc] at h
      cases h

/-- Witness for `notify_location_consistency`: the concrete PUSH event
of `push('/foo')` on `sampleEngine`. -/
theorem notify_location_consistency_witness :
    ({ action := .PUSH, location := createLocation "/foo" .undefined 1,
       fromLoc := some (createLocation "/" .null 0), recipients := [7] } : Change).location
        = (pushM memConfig "/foo" .undefined sampleEngine).1.location ∧
    ({ action := .PUSH, location := createLocation "/foo" .undefined 1,
       fromLoc := some (createLocation "/" .null 0), recipients := [7] } : Change).fromLoc
        = some sampleEngine.location ∧
    ({ action := .PUSH, location := createLocation "/foo" .undefined 1,
       fromLoc := some (createLocation "/" .null 0), recipients := [7] } : Change).recipients
        = sampleEngine.listeners :=
  (notify_location_consistency memConfig sampleEngine "/foo" .undefined 0).1 _ (by rfl)

/-! ## Operation sequences

A small command language over the engine's public operations, used to
state properties of arbitrary interaction sequences.  `subscribe` is
deliberately absent: the destroyed-engine claims quantify over every
interaction that does not re-subscribe a listener. -/

inductive HOp where
  | push (toStr : String) (st : StateVal)
  | replace (toStr : String) (st : StateVal)
  | go (delta : Int)
  | unsubscribe (id : Nat)
  | destroy
deriving DecidableEq, Repr

/-- The changes actually delivered by a push/replace result (none when
`getLocation` threw). -/
def emitted : Except String Change → List Change
  | .ok ch => [ch]
  | .error _ => []

/-- The changes actually delivered by a go result. -/
def emittedOpt : Except String (Option Change) → List Change
  | .ok (some ch) => [ch]
  | _ => []

/-- Run one operation, collecting the delivered changes. -/
def stepM (c : Config σ) (op : HOp) (e : Engine σ) : Engine σ × List Change :=
  match op with
  | .push t s => ((pushM c t s e).1, emitted (pushM c t s e).2)
  | .replace t s => ((replaceM c t s e).1, emitted (replaceM c t s e).2)
  | .go d => ((goM c d e).1, emittedOpt (goM c d e).2)
  | .unsubscribe i => (unsubscribeM i e, [])
  | .destroy => (destroyM e, [])

/-- Run a sequence of operations, collecting all delivered changes in
order. -/
def runM (c : Config σ) : List HOp → Engine σ → Engine σ × List Change
  | [], e => (e, [])
  | op :: ops, e =>
    ((runM c ops (stepM c op e).1).1,
     (stepM c op e).2 ++ (runM c ops (stepM c op e).1).2)

/-- Helper: `triggerChange` does not touch the listener set. -/
theorem triggerChange_listeners {σ : Type} (c : Config σ) (a : Action) (e : Engine σ) :
    (triggerChange c a e).1.listeners = e.listeners := by
  unfold triggerChange
  cases hg : c.driver.getLocation e.win e.nextId <;> simp [hg]

/-- Helper: `triggerChange` delivers only to the current listeners. -/
theorem triggerChange_recipients {σ : Type} (c : Config σ) (a : Action) (e : Engine σ)
    (ch : Change) (h : (triggerChange c a e).2 = .ok ch) : ch.recipients = e.listeners :=
  (triggerChange_consistent c a e ch h).2.2

/-- Helper: on an engine with no listeners, any non-subscribing step
keeps the listener set empty and delivers every emitted change to
nobody. -/
theorem stepM_silent {σ : Type} (c : Config σ) (op : HOp) (e : Engine σ)
    (h : e.listeners = []) :
    (stepM c op e).1.listeners = [] ∧
    ((stepM c op e).2.all fun ch => ch.recipients.isEmpty) = true := by
  cases op with
  | push t s =>
    refine ⟨by simpa [stepM, pushM, h] using triggerChange_listeners c .PUSH _, ?_⟩
    show (emitted (pushM c t s e).2).all _ = true
    cases hr : (pushM c t s e).2 with
    | error msg => simp [emitted]
    | ok ch =>
      have := triggerChange_recipients c .PUSH _ ch hr
      simp [emitted, List.isEmpty_iff, this, h]
  | replace t s =>
    refine ⟨by simpa [stepM, replaceM, h] using triggerChange_listeners c .REPLACE _, ?_⟩
    show (emitted (replaceM c t s e).2).all _ = true
    cases hr : (replaceM c t s e).2 with
    | error msg => simp [emitted]
    | ok ch =>
      have := triggerChange_recipients c .REPLACE _ ch hr
      simp [emitted, List.isEmpty_iff, this, h]
  | go d =>
    constructor
    · show (goM c d e).1.listeners = []
      unfold goM
      by_cases hc : (c.ops.go e.win d).2 = true ∧ e.popAttached = true
      · simpa [if_pos hc, h] using
          triggerChange_listeners c .POP { e with win := (c.ops.go e.win d).1 }
      · simp [if_neg hc, h]
    · show (emittedOpt (goM c d e).2).all _ = true
      unfold goM
      by_cases hc : (c.ops.go e.win d).2 = true ∧ e.popAttached = true
      · simp only [if_pos hc]
        cases hr : (triggerChange c .POP { e with win := (c.ops.go e.win d).1 }).2 with
        | error msg => simp [hr, emittedOpt, Except.map]
        | ok ch =>
          have := triggerChange_recipients c .POP _ ch hr
          simp [hr, emittedOpt, Except.map, List.isEmpty_iff, this, h]
      · simp [if_neg hc, emittedOpt]
  | unsubscribe i => exact ⟨by simp [stepM, unsubscribeM, h], by simp [stepM]⟩
  | destroy => exact ⟨rfl, rfl⟩

/-- Helper: a listener-less engine stays listener-less across any
non-subscribing operation sequence, and no delivered change has a
recipient. -/
theorem runM_silent {σ : Type} (c : Config σ) (ops : List HOp) (e : Engine σ)
    (h : e.listeners = []) :
    (runM c ops e).1.listeners = [] ∧
    ((runM c ops e).2.all fun ch => ch.recipients.isEmpty) = true := by
  induction ops generalizing e with
  | nil => exact ⟨h, rfl⟩
  | cons op ops ih =>
    have hs := stepM_silent c op e h
    have hr := ih (stepM c op e).1 hs.1
    refine ⟨hr.1, ?_⟩
    show (((stepM c op e).2 ++ (runM c ops (stepM c op e).1).2).all _) = true
    rw [List.all_append, hs.2, hr.2]
    rfl

/-- C9: `destroy()` clears the listener set and detaches `handlePop`
from the surface; a second `destroy()` is a no-op (in particular it
cannot throw — `destroyM` is a total operation returning no error);
and after a `destroy()`, every navigation — engine-initiated pushes
and replaces, and surface-level cursor moves alike — delivers its
change events to an empty recipient set, across any operation sequence
that does not subscribe a new listener. -/
theorem destroy_finality {σ : Type} (c : Config σ) (e : Engine σ) (ops : List HOp) :
    (destroyM e).listeners = [] ∧
    (destroyM e).popAttached = false ∧
    destroyM (destroyM e) = destroyM e ∧
    ((runM c ops (destroyM e)).2.all fun ch => ch.recipients.isEmpty) = true :=
  ⟨rfl, rfl, rfl, (runM_silent c ops (destroyM e) rfl).2⟩

/-- C10: `destroy()` changes nothing but the listener set and the
surface pop registration — the surface, `location`, `from` and the
allocation counter are untouched — and the destroyed engine's `push`
and `replace` still work: they mutate the surface, replace
`location`/`from`, and synchronously notify a listener that subscribed
after the destroy (for any driver and surface, whenever the driver can
derive the post-mutation location). -/
theorem destroy_frame_effect {σ : Type} (c : Config σ) (e : Engine σ)
    (toStr : String) (st : StateVal) (i : Nat) (L L2 : Location) :
    (destroyM e).win = e.win ∧
    (destroyM e).location = e.location ∧
    (destroyM e).fromLoc = e.fromLoc ∧
    (destroyM e).nextId = e.nextId ∧
    (c.driver.getLocation
        (c.ops.pushState e.win (c.driver.prepareState st toStr e.location)
          (c.driver.prepareUrl toStr e.location)) e.nextId = .ok L →
      pushM c toStr st (subscribeM i (destroyM e)) =
        ({ win := c.ops.pushState e.win (c.driver.prepareState st toStr e.location)
                    (c.driver.prepareUrl toStr e.location),
           popAttached := false, location := L, fromLoc := some e.location,
           listeners := [i], nextId := e.nextId + 1 },
         .ok { action := .PUSH, location := L, fromLoc := some e.location,
               recipients := [i] })) ∧
    (c.driver.getLocation
        (c.ops.replaceState e.win (c.driver.prepareState st toStr e.location)
          (c.driver.prepareUrl toStr e.location)) e.nextId = .ok L2 →
      replaceM c toStr st (subscribeM i (destroyM e)) =
        ({ win := c.ops.replaceState e.win (c.driver.prepareState st toStr e.location)
                    (c.driver.prepareUrl toStr e.location),
           popAttached := false, location := L2, fromLoc := some e.location,
           listeners := [i], nextId := e.nextId + 1 },
         .ok { action := .REPLACE, location := L2, fromLoc := some e.location,
               recipients := [i] })) := by
  refine ⟨rfl, rfl, rfl, rfl, fun hL => ?_, fun hL => ?_⟩
  · unfold pushM triggerChange subscribeM destroyM
    simp [hL]
  · unfold replaceM triggerChange subscribeM destroyM
    simp [hL]

/-- Witness for `destroy_frame_effect`: `push('/foo')` on the
destroyed-then-resubscribed `sampleEngine` still mutates the surface
and notifies listener 7. -/
theorem destroy_frame_effect_witness :
    pushM memConfig "/foo" .undefined (subscribeM 7 (destroyM sampleEngine)) =
      ({ win := memConfig.ops.pushState sampleEngine.win
                  (memConfig.driver.prepareState .undefined "/foo" sampleEngine.location)
                  (memConfig.driver.prepareUrl "/foo" sampleEngine.location),
         popAttached := false, location := createLocation "/foo" .undefined 1,
         fromLoc := some sampleEngine.location,
         listeners := [7], nextId := sampleEngine.nextId + 1 },
       .ok { action := .PUSH, location := createLocation "/foo" .undefined 1,
             fromLoc := some sampleEngine.location, recipients := [7] }) :=
  (destroy_frame_effect memConfig sampleEngine "/foo" .undefined 7
    (createLocation "/foo" .undefined 1) (createLocation "/foo" .undefined 1)).2.2.2.2.1
    (by rfl)

end Poutr
